import Mathlib

/-!
Shallow embedding of the campus-navigation repository's computational core:
the geodesy utilities, the three-point path generator and the turn-by-turn
directions generator from `lib/path-network`, and the keyword matcher,
nearest-location scan and query processor from `components/ai-navigator`.
Coordinates in the static registry are modelled as rationals (the source data
are decimal literals); the geodesy functions, which use trigonometry, are
modelled over the reals.
-/

namespace CampusNav

/-- JavaScript `String.prototype.toLowerCase`, modelled per character. -/
def jsToLower (s : String) : String := String.mk (s.data.map Char.toLower)

/-- Contiguous-sublist test on character lists. -/
def charsInfix (needle hay : List Char) : Bool :=
  hay.tails.any (fun t => needle.isPrefixOf t)

/-- JavaScript `hay.includes(needle)`: `needle` is a contiguous substring of `hay`. -/
def jsIncludes (hay needle : String) : Bool := charsInfix needle.data hay.data

/-- Splitting a character list at whitespace runs; the accumulator holds the
current word reversed.  Empty pieces may appear and are removed downstream by
the length filter, exactly as in `split(/\s+/)` followed by `length > 2`. -/
def splitWsAux : List Char → List Char → List String
  | [], cur => [String.mk cur.reverse]
  | c :: cs, cur =>
    if c.isWhitespace then String.mk cur.reverse :: splitWsAux cs []
    else splitWsAux cs (c :: cur)

/-- JavaScript `s.split(/\s+/)` up to empty pieces (which the keyword filter
discards). -/
def splitWs (s : String) : List String := splitWsAux s.data []

/-- Keyword extraction of `processQuery`:
`userQuery.toLowerCase().trim().split(/\s+/).filter((word) => word.length > 2)`. -/
def keywordsOf (q : String) : List String :=
  (splitWs (jsToLower q)).filter (fun w => 2 < w.length)

/-- A record of the static campus location registry (`lib/campus-data`), with the
fields the algorithms read: name, coordinates, keyword tags and description. -/
structure Location where
  name : String
  lat : ℚ
  lng : ℚ
  tags : List String
  description : String
deriving DecidableEq, Inhabited

/-- The `type` field of a path node. -/
inductive NodeType where
  | intersection
  | location
  | waypoint
deriving DecidableEq, Inhabited

/-- Structure `PathNode` from `lib/path-network`. -/
structure PathNode where
  id : String
  lat : ℚ
  lng : ℚ
  name : String
  type : NodeType
deriving DecidableEq, Inhabited

namespace PathNetwork

open Real

/-- JavaScript `Math.atan2 y x`, via the complex argument (range `(-π, π]`). -/
noncomputable def atan2 (y x : ℝ) : ℝ := Complex.arg ⟨x, y⟩

/-- JavaScript `a % b` (sign of the dividend): `a - b * trunc (a / b)`. -/
noncomputable def jsRem (a b : ℝ) : ℝ :=
  if 0 ≤ a / b then a - b * ⌊a / b⌋ else a - b * ⌈a / b⌉

/-- Haversine distance of `lib/path-network` (`calculateDistance`). -/
noncomputable def calculateDistance (lat1 lng1 lat2 lng2 : ℝ) : ℝ :=
  let R : ℝ := 6371000
  let φ1 := lat1 * π / 180
  let φ2 := lat2 * π / 180
  let dphi := (lat2 - lat1) * π / 180
  let dlam := (lng2 - lng1) * π / 180
  let a := Real.sin (dphi / 2) * Real.sin (dphi / 2) +
      Real.cos φ1 * Real.cos φ2 * (Real.sin (dlam / 2) * Real.sin (dlam / 2))
  let c := 2 * atan2 (Real.sqrt a) (Real.sqrt (1 - a))
  R * c

/-- Initial bearing of `lib/path-network` (`calculateBearing`). -/
noncomputable def calculateBearing (lat1 lng1 lat2 lng2 : ℝ) : ℝ :=
  let φ1 := lat1 * π / 180
  let φ2 := lat2 * π / 180
  let dlam := (lng2 - lng1) * π / 180
  let y := Real.sin dlam * Real.cos φ2
  let x := Real.cos φ1 * Real.sin φ2 - Real.sin φ1 * Real.cos φ2 * Real.cos dlam
  let θ := atan2 y x
  jsRem (θ * 180 / π + 360) 360

/-- The eight compass labels of `bearingToDirection`. -/
def compassDirections : List String :=
  ["north", "northeast", "east", "southeast", "south", "southwest", "west", "northwest"]

/-- Function `bearingToDirection`: `directions[Math.round(bearing / 45) % 8]`.  A negative
index (JavaScript `%` keeps the dividend's sign) reads past the array and yields
`undefined`, modelled as `none`. -/
noncomputable def bearingToDirection (bearing : ℝ) : Option String :=
  let index : ℤ := Int.tmod (round (bearing / 45)) 8
  if 0 ≤ index ∧ index < 8 then some (compassDirections.getD index.toNat "undefined")
  else none

/-- Function `findPath`: look both names up by exact match in the registry; on success
build the fixed three-node start/midpoint/end path, otherwise return `null`. -/
def findPath (registry : List Location) (startLocationName endLocationName : String) :
    Option (List PathNode) :=
  match registry.find? (fun loc => loc.name == startLocationName),
        registry.find? (fun loc => loc.name == endLocationName) with
  | some startLocation, some endLocation =>
    some [ { id := "start", lat := startLocation.lat, lng := startLocation.lng,
             name := startLocationName, type := NodeType.location },
           { id := "mid", lat := (startLocation.lat + endLocation.lat) / 2,
             lng := (startLocation.lng + endLocation.lng) / 2,
             name := "Midpoint", type := NodeType.waypoint },
           { id := "end", lat := endLocation.lat, lng := endLocation.lng,
             name := endLocationName, type := NodeType.location } ]
  | _, _ => none

/-- The string JavaScript renders for a possibly-`undefined` compass direction. -/
def dirString : Option String → String
  | some s => s
  | none => "undefined"

/-- One segment line of `generateDirections` (loop body for index `i`). -/
noncomputable def segLine (path : List PathNode) (i : ℕ) : String :=
  let currentNode := path.getD i default
  let nextNode := path.getD (i + 1) default
  let distance := calculateDistance currentNode.lat currentNode.lng nextNode.lat nextNode.lng
  let direction := dirString (bearingToDirection
    (calculateBearing currentNode.lat currentNode.lng nextNode.lat nextNode.lng))
  if i = 0 then
    "Head " ++ direction ++ " for " ++ toString (round distance) ++ "m"
  else if i = path.length - 2 then
    "Continue " ++ direction ++ " for " ++ toString (round distance) ++ "m to reach " ++
      nextNode.name
  else
    "Continue " ++ direction ++ " for " ++ toString (round distance) ++ "m"

/-- The persona flavor strings of `generateDirections`. -/
def tipNewStudent : String := "💡 Tip: Look for landmarks along the way"

/-- Flavor string for the cat-lover persona. -/
def tipCatLover : String := "😻 Keep an eye out for campus cats!"

/-- Flavor string for the cat-fearful persona. -/
def tipCatFearful : String := "😰 Stay on well-lit paths"

/-- The persona-specific tip lines pushed after segment `i` of a path of length
`n` (the `if/else if` chain at the end of the loop body). -/
def tipLines (persona : String) (n i : ℕ) : List String :=
  if persona = "new-student" ∧ i = 0 then [tipNewStudent]
  else if persona = "cat-lover" ∧ i = n / 2 then [tipCatLover]
  else if persona = "cat-fearful" ∧ i = 0 then [tipCatFearful]
  else []

/-- The total-distance reduction of `generateDirections` (`path.reduce`). -/
noncomputable def totalDistance (path : List PathNode) : ℝ :=
  (path.enum.foldl
    (fun sum p =>
      if p.1 = 0 then 0
      else
        sum + calculateDistance (path.getD (p.1 - 1) default).lat
          (path.getD (p.1 - 1) default).lng p.2.lat p.2.lng)
    0)

/-- Function `generateDirections`: opening line, one line per consecutive node pair with
optional persona tip, closing line and total-distance line; empty for paths
shorter than two nodes. -/
noncomputable def generateDirections (path : List PathNode) (persona : String) :
    List String :=
  if path.length < 2 then []
  else
    ("Start at " ++ (path.getD 0 default).name) ::
      ((List.range (path.length - 1)).flatMap
          (fun i => segLine path i :: tipLines persona path.length i) ++
        ["Arrive at " ++ (path.getD (path.length - 1) default).name,
         "📍 Total distance: " ++ toString (round (totalDistance path)) ++ "m"])

end PathNetwork

namespace AINavigator

open Real

/-- Haversine distance of `components/ai-navigator` (`calculateDistance`), a
textual duplicate of the path-network implementation. -/
noncomputable def calculateDistance (lat1 lon1 lat2 lon2 : ℝ) : ℝ :=
  let R : ℝ := 6371000
  let φ1 := lat1 * π / 180
  let φ2 := lat2 * π / 180
  let dphi := (lat2 - lat1) * π / 180
  let dlam := (lon2 - lon1) * π / 180
  let a := Real.sin (dphi / 2) * Real.sin (dphi / 2) +
      Real.cos φ1 * Real.cos φ2 * (Real.sin (dlam / 2) * Real.sin (dlam / 2))
  let c := 2 * PathNetwork.atan2 (Real.sqrt a) (Real.sqrt (1 - a))
  R * c

/-- Distance from a device position to a registry location, as computed inside
`findNearestLocation` (registry coordinates cast from their exact decimal
values to reals). -/
noncomputable def distTo (userLat userLng : ℚ) (loc : Location) : ℝ :=
  calculateDistance (userLat : ℝ) (userLng : ℝ) (loc.lat : ℝ) (loc.lng : ℝ)

/-- The body of the `forEach` loop of `findNearestLocation`: keep the current
location when its distance is strictly below the minimum so far. -/
noncomputable def nearestStep (userLat userLng : ℚ)
    (acc : Option Location × EReal) (location : Location) : Option Location × EReal :=
  let distance := distTo userLat userLng location
  if (distance : EReal) < acc.2 then (some location, (distance : EReal)) else acc

/-- Function `findNearestLocation`: linear scan keeping the strictly closest location so
far; `minDistance` starts at `Infinity`, modelled as `⊤ : EReal`. -/
noncomputable def findNearestLocation (registry : List Location)
    (userLat userLng : ℚ) : Option Location :=
  (registry.foldl (nearestStep userLat userLng)
    ((none : Option Location), (⊤ : EReal))).1

/-- The keyword score of `processQuery`: three accumulation loops over the
keywords, +3 per matching tag, +2 for a name match, +1 for a description
match. -/
def score (keywords : List String) (location : Location) : ℕ :=
  let s1 := keywords.foldl
    (fun s keyword => location.tags.foldl
      (fun s2 tag =>
        if jsIncludes tag keyword || jsIncludes keyword tag then s2 + 3 else s2)
      s)
    0
  let s2 := keywords.foldl
    (fun s keyword => if jsIncludes (jsToLower location.name) keyword then s + 2 else s)
    s1
  keywords.foldl
    (fun s keyword =>
      if jsIncludes (jsToLower location.description) keyword then s + 1 else s)
    s2

/-- The head of the stably score-sorted registry: the first location attaining
the maximal score (JavaScript's `sort((a, b) => b.score - a.score)` is stable,
so `scoredLocations[0]` is the earliest maximum). -/
def bestMatch (keywords : List String) (h : Location) (t : List Location) : Location :=
  t.foldl (fun acc x => if score keywords acc < score keywords x then x else acc) h

/-- Geolocation permission state of the chat widget. -/
inductive GeoPermission where
  | granted
  | denied
  | prompt
deriving DecidableEq

/-- The observable outcome of `processQuery`: the appended AI reply, the
location passed to the `onLocationFound` callback (if any) and the route passed
to the `onRouteRequest` callback (if any). -/
structure ProcessResult where
  response : String
  locationFound : Option Location
  routeRequest : Option (String × String)
deriving DecidableEq

/-- The fixed fallback reply for a zero-score query. -/
def fallbackText : String :=
  "Hmm, I'm not sure where that is, but you can explore the map! Try asking about food, study spots, romantic places, or sports facilities."

/-- Function `processQuery` of the chat widget.  On an empty registry the source throws
(`scoredLocations[0]` is `undefined`), modelled as `none`. -/
noncomputable def processQuery (registry : List Location)
    (userLocation : Option (ℚ × ℚ)) (locationPermission : GeoPermission)
    (userQuery : String) : Option ProcessResult :=
  let keywords := keywordsOf userQuery
  match registry with
  | [] => none
  | h :: t =>
    let best := bestMatch keywords h t
    some (if 0 < score keywords best then
      match userLocation, locationPermission with
      | some u, GeoPermission.granted =>
        match findNearestLocation (h :: t) u.1 u.2 with
        | some nearestLocation =>
          { response := "Perfect! I found " ++ best.name ++ " for you. " ++
              best.description ++ " I'm showing you the route from " ++
              nearestLocation.name ++ " (nearest to your current location).",
            locationFound := some best,
            routeRequest := some (nearestLocation.name, best.name) }
        | none =>
          { response := "You can try the " ++ best.name ++ "! " ++ best.description,
            locationFound := some best,
            routeRequest := none }
      | _, _ =>
        { response := "I'd recommend " ++ best.name ++ ". " ++ best.description ++
            " (Enable location access to get directions from your current position!)",
          locationFound := some best,
          routeRequest := none }
    else
      { response := fallbackText, locationFound := none, routeRequest := none })

end AINavigator

/-- Score assignment exactly as the claim words it: +3 per token that matches
ANY of the location's tags (counted once per token), +2 per token contained in
the lowercased name, +1 per token contained in the lowercased description.
This follows the claim's sentence, for comparison against the source's
`score`. -/
def claimedScore (keywords : List String) (location : Location) : ℕ :=
  3 * (keywords.filter (fun keyword =>
        location.tags.any (fun tag =>
          jsIncludes tag keyword || jsIncludes keyword tag))).length +
  2 * (keywords.filter (fun keyword =>
        jsIncludes (jsToLower location.name) keyword)).length +
  (keywords.filter (fun keyword =>
        jsIncludes (jsToLower location.description) keyword)).length

/-- A direction line is persona flavor text exactly when it is one of the three
fixed tip strings of `generateDirections`. -/
def isFlavor (s : String) : Bool :=
  s == PathNetwork.tipNewStudent || s == PathNetwork.tipCatLover ||
    s == PathNetwork.tipCatFearful

end CampusNav

open CampusNav

open Real

/-- C10: the two textually duplicated Haversine implementations, in the
path-network module and in the chat widget, are extensionally equal. -/
theorem claim_C10 (lat1 lng1 lat2 lng2 : ℝ) :
    PathNetwork.calculateDistance lat1 lng1 lat2 lng2 =
      AINavigator.calculateDistance lat1 lng1 lat2 lng2 := rfl

/-- C7: the Haversine distance of the path-network module is symmetric in its
two coordinate points, and the distance from a point to itself is zero. -/
theorem claim_C7 :
    (∀ lat1 lng1 lat2 lng2 : ℝ,
      PathNetwork.calculateDistance lat1 lng1 lat2 lng2 =
        PathNetwork.calculateDistance lat2 lng2 lat1 lng1) ∧
    (∀ lat lng : ℝ, PathNetwork.calculateDistance lat lng lat lng = 0) := by
  constructor
  · intro a b c d
    simp only [PathNetwork.calculateDistance]
    rw [show (a - c) * π / 180 = -((c - a) * π / 180) from by ring,
      show (b - d) * π / 180 = -((d - b) * π / 180) from by ring]
    simp only [neg_div, Real.sin_neg, neg_mul_neg]
    rw [mul_comm (Real.cos (c * π / 180)) (Real.cos (a * π / 180))]
  · intro lat lng
    simp [PathNetwork.calculateDistance, PathNetwork.atan2, sub_self,
      show ((⟨1, 0⟩ : ℂ) = 1) from rfl, Complex.arg_one]

/-- The JavaScript remainder of a nonnegative dividend by a positive divisor
lies in `[0, divisor)`. -/
theorem jsRem_nonneg_lt (a b : ℝ) (hb : 0 < b) (ha : 0 ≤ a) :
    0 ≤ PathNetwork.jsRem a b ∧ PathNetwork.jsRem a b < b := by
  unfold PathNetwork.jsRem
  rw [if_pos (div_nonneg ha hb.le)]
  constructor
  · have h := Int.floor_le (a / b)
    have h2 : b * (⌊a / b⌋ : ℝ) ≤ b * (a / b) := by
      exact mul_le_mul_of_nonneg_left h hb.le
    have h3 : b * (a / b) = a := by field_simp
    linarith
  · have h := Int.lt_floor_add_one (a / b)
    have h2 : b * (a / b) < b * ((⌊a / b⌋ : ℝ) + 1) := by
      exact mul_lt_mul_of_pos_left h hb
    have h3 : b * (a / b) = a := by field_simp
    nlinarith

/-- The bearing formula lands in `[0, 360)` for any arctangent input. -/
theorem bearing_rem_bounds (y x : ℝ) :
    0 ≤ PathNetwork.jsRem (PathNetwork.atan2 y x * 180 / π + 360) 360 ∧
      PathNetwork.jsRem (PathNetwork.atan2 y x * 180 / π + 360) 360 < 360 := by
  have hpi := Real.pi_pos
  have hθ : -π < PathNetwork.atan2 y x := Complex.neg_pi_lt_arg _
  have h1 : (-1 : ℝ) < PathNetwork.atan2 y x / π := by
    rw [lt_div_iff₀ hpi]
    linarith
  have ha : 0 ≤ PathNetwork.atan2 y x * 180 / π + 360 := by
    have h2 : PathNetwork.atan2 y x * 180 / π = 180 * (PathNetwork.atan2 y x / π) := by
      ring
    rw [h2]
    nlinarith
  exact jsRem_nonneg_lt _ _ (by norm_num) ha

/-- C6: `calculateBearing` always returns a value in the half-open interval
`[0, 360)`. -/
theorem claim_C6 (lat1 lng1 lat2 lng2 : ℝ) :
    0 ≤ PathNetwork.calculateBearing lat1 lng1 lat2 lng2 ∧
      PathNetwork.calculateBearing lat1 lng1 lat2 lng2 < 360 := by
  simp only [PathNetwork.calculateBearing]
  exact bearing_rem_bounds _ _

/-- C4 counterexample: at the finite bearing `-50`, the rounded index is `-1`,
JavaScript `%` keeps it negative, the array read is out of bounds and
`bearingToDirection` does not return any of the eight labels. -/
theorem claim_C4_counterexample : PathNetwork.bearingToDirection (-50) = none := by
  have h : round ((-50 : ℝ) / 45) = -1 := by
    rw [round_eq]
    norm_num
  simp only [PathNetwork.bearingToDirection]
  rw [h]
  decide

/-- C4 (amended): for every nonnegative finite bearing, `bearingToDirection`
returns one of exactly the eight fixed compass labels, by rounding
`bearing / 45` to the nearest integer modulo 8. -/
theorem claim_C4 (bearing : ℝ) (h : 0 ≤ bearing) :
    ∃ s, PathNetwork.bearingToDirection bearing = some s ∧
      s ∈ PathNetwork.compassDirections := by
  have hr : 0 ≤ round (bearing / 45) := by
    rw [round_eq]
    exact Int.floor_nonneg.mpr (by positivity)
  have h0 : 0 ≤ Int.tmod (round (bearing / 45)) 8 := Int.tmod_nonneg _ hr
  have h8 : Int.tmod (round (bearing / 45)) 8 < 8 :=
    Int.tmod_lt_of_pos _ (by norm_num)
  have hlen : (Int.tmod (round (bearing / 45)) 8).toNat <
      PathNetwork.compassDirections.length := by
    simp only [PathNetwork.compassDirections, List.length]
    omega
  simp only [PathNetwork.bearingToDirection]
  rw [if_pos ⟨h0, h8⟩]
  exact ⟨_, rfl, by
    rw [List.getD_eq_getElem _ _ hlen]
    exact List.getElem_mem _⟩

/-- C4 witness: the amended theorem applied at bearing `90`. -/
theorem claim_C4_witness :
    (0 : ℝ) ≤ 90 ∧ ∃ s, PathNetwork.bearingToDirection 90 = some s ∧
      s ∈ PathNetwork.compassDirections :=
  ⟨by norm_num, claim_C4 90 (by norm_num)⟩

/-- C2: when both names resolve by exact case-sensitive lookup, `findPath`
returns exactly the three-node start/mean-midpoint/end path with node types
location/waypoint/location; when either lookup fails it returns `none` instead
of throwing. -/
theorem claim_C2 (registry : List Location) (a b : String) :
    (∀ s e, registry.find? (fun loc => loc.name == a) = some s →
      registry.find? (fun loc => loc.name == b) = some e →
      PathNetwork.findPath registry a b =
        some [⟨"start", s.lat, s.lng, a, NodeType.location⟩,
              ⟨"mid", (s.lat + e.lat) / 2, (s.lng + e.lng) / 2, "Midpoint",
                NodeType.waypoint⟩,
              ⟨"end", e.lat, e.lng, b, NodeType.location⟩]) ∧
    ((registry.find? (fun loc => loc.name == a) = none ∨
      registry.find? (fun loc => loc.name == b) = none) →
      PathNetwork.findPath registry a b = none) := by
  constructor
  · intro s e hs he
    unfold PathNetwork.findPath
    rw [hs, he]
  · intro h
    unfold PathNetwork.findPath
    rcases h with h | h
    · rw [h]
    · rw [h]
      cases registry.find? (fun loc => loc.name == a) <;> rfl

/-- C2 witness: the three-node path for a concrete two-location registry. -/
theorem claim_C2_witness :
    PathNetwork.findPath [⟨"A", 1, 2, [], ""⟩, ⟨"B", 3, 4, [], ""⟩] "A" "B" =
      some [⟨"start", 1, 2, "A", NodeType.location⟩,
            ⟨"mid", 2, 3, "Midpoint", NodeType.waypoint⟩,
            ⟨"end", 3, 4, "B", NodeType.location⟩] := by
  have h := (claim_C2 [⟨"A", 1, 2, [], ""⟩, ⟨"B", 3, 4, [], ""⟩] "A" "B").1
    ⟨"A", 1, 2, [], ""⟩ ⟨"B", 3, 4, [], ""⟩ (by decide) (by decide)
  rw [h]
  norm_num

/-- An accumulating conditional fold counts the matching elements. -/
theorem foldl_count {α : Type} (p : α → Bool) (c : ℕ) :
    ∀ (l : List α) (a : ℕ),
      l.foldl (fun s x => if p x then s + c else s) a =
        a + c * (l.filter p).length := by
  intro l
  induction l with
  | nil => intro a; simp
  | cons x xs ih =>
    intro a
    by_cases hx : p x
    · simp [hx, ih]
      ring
    · simp [hx, ih]

/-- An accumulating additive fold sums the mapped elements. -/
theorem foldl_sum {α : Type} (g : α → ℕ) :
    ∀ (l : List α) (a : ℕ),
      l.foldl (fun s x => s + g x) a = a + (l.map g).sum := by
  intro l
  induction l with
  | nil => intro a; simp
  | cons x xs ih =>
    intro a
    simp only [List.foldl_cons, List.map_cons, List.sum_cons, ih]
    ring

/-- The mutable-accumulator keyword score of `processQuery` in closed form:
3 per matching (keyword, tag) pair, 2 per keyword contained in the lowercased
name, 1 per keyword contained in the lowercased description. -/
theorem score_eq (keywords : List String) (loc : Location) :
    AINavigator.score keywords loc =
      3 * (keywords.map (fun keyword =>
          (loc.tags.filter (fun tag =>
            jsIncludes tag keyword || jsIncludes keyword tag)).length)).sum +
      2 * (keywords.filter (jsIncludes (jsToLower loc.name))).length +
      (keywords.filter (jsIncludes (jsToLower loc.description))).length := by
  have hmap : ∀ (l : List String) (f : String → ℕ),
      (l.map (fun k => 3 * f k)).sum = 3 * (l.map f).sum := by
    intro l f
    induction l with
    | nil => simp
    | cons x xs ih => simp [ih]; ring
  simp only [AINavigator.score, foldl_count, foldl_sum, hmap]
  omega

/-- The first-maximum fold of the stable score sort: the result is a member of
the registry, and its score dominates every member's score. -/
theorem bestMatch_fold_spec (kw : List String) :
    ∀ (t : List Location) (h : Location),
      AINavigator.bestMatch kw h t ∈ h :: t ∧
      AINavigator.score kw h ≤ AINavigator.score kw (AINavigator.bestMatch kw h t) ∧
      ∀ l ∈ t, AINavigator.score kw l ≤ AINavigator.score kw (AINavigator.bestMatch kw h t) := by
  intro t
  induction t with
  | nil =>
    intro h
    refine ⟨List.mem_cons_self _ _, le_refl _, ?_⟩
    intro l hl
    simp at hl
  | cons x xs ih =>
    intro h
    by_cases hc : AINavigator.score kw h < AINavigator.score kw x
    · have hstep : AINavigator.bestMatch kw h (x :: xs) = AINavigator.bestMatch kw x xs := by
        simp only [AINavigator.bestMatch, List.foldl_cons, if_pos hc]
      obtain ⟨m1, m2, m3⟩ := ih x
      rw [hstep]
      refine ⟨?_, le_trans (le_of_lt hc) m2, ?_⟩
      · rcases List.mem_cons.mp m1 with h1 | h1
        · rw [h1]; exact List.mem_cons_of_mem _ (List.mem_cons_self _ _)
        · exact List.mem_cons_of_mem _ (List.mem_cons_of_mem _ h1)
      · intro l hl
        rcases List.mem_cons.mp hl with h1 | h1
        · rw [h1]; exact m2
        · exact m3 _ h1
    · have hstep : AINavigator.bestMatch kw h (x :: xs) = AINavigator.bestMatch kw h xs := by
        simp only [AINavigator.bestMatch, List.foldl_cons, if_neg hc]
      obtain ⟨m1, m2, m3⟩ := ih h
      rw [hstep]
      refine ⟨?_, m2, ?_⟩
      · rcases List.mem_cons.mp m1 with h1 | h1
        · rw [h1]; exact List.mem_cons_self _ _
        · exact List.mem_cons_of_mem _ (List.mem_cons_of_mem _ h1)
      · intro l hl
        rcases List.mem_cons.mp hl with h1 | h1
        · rw [h1]; exact le_trans (not_lt.mp hc) m2
        · exact m3 _ h1

/-- C1 (amended): the keyword matcher tokenizes the lowercased query on
whitespace, discards tokens of length at most 2, scores each location with +3
per (token, tag) pair where one contains the other, +2 per token contained in
the lowercased name, +1 per token contained in the lowercased description, and
the chat widget recommends the first location attaining the highest such
score. -/
theorem claim_C1 (h : Location) (t : List Location) (q : String)
    (uloc : Option (ℚ × ℚ)) (perm : AINavigator.GeoPermission) :
    (∀ loc, AINavigator.score (keywordsOf q) loc =
      3 * ((keywordsOf q).map (fun keyword =>
          (loc.tags.filter (fun tag =>
            jsIncludes tag keyword || jsIncludes keyword tag)).length)).sum +
      2 * ((keywordsOf q).filter (jsIncludes (jsToLower loc.name))).length +
      ((keywordsOf q).filter (jsIncludes (jsToLower loc.description))).length) ∧
    AINavigator.bestMatch (keywordsOf q) h t ∈ h :: t ∧
    (∀ loc ∈ h :: t, AINavigator.score (keywordsOf q) loc ≤
      AINavigator.score (keywordsOf q) (AINavigator.bestMatch (keywordsOf q) h t)) ∧
    (∃ r, AINavigator.processQuery (h :: t) uloc perm q = some r ∧
      r.locationFound =
        if 0 < AINavigator.score (keywordsOf q) (AINavigator.bestMatch (keywordsOf q) h t)
        then some (AINavigator.bestMatch (keywordsOf q) h t) else none) := by
  obtain ⟨m1, m2, m3⟩ := bestMatch_fold_spec (keywordsOf q) t h
  refine ⟨fun loc => score_eq _ loc, m1, ?_, ?_⟩
  · intro loc hloc
    rcases List.mem_cons.mp hloc with h1 | h1
    · rw [h1]; exact m2
    · exact m3 _ h1
  · simp only [AINavigator.processQuery]
    refine ⟨_, rfl, ?_⟩
    by_cases h0 : 0 < AINavigator.score (keywordsOf q)
        (AINavigator.bestMatch (keywordsOf q) h t)
    · rw [if_pos h0, if_pos h0]
      rcases uloc with _ | u
      · rfl
      · rcases perm with _ | _ | _
        · cases hn : AINavigator.findNearestLocation (h :: t) u.1 u.2 <;> simp [hn]
        · rfl
        · rfl
    · rw [if_neg h0, if_neg h0]

/-- C1 counterexample: with registry `[A, B]` and query `"aaa bbb"`, the widget
recommends `A` (its double-counted tag matches win the stable sort), yet under
the claim's per-token scoring `B` strictly outscores `A`, so the recommended
location does not have the highest claimed score. -/
theorem claim_C1_counterexample :
    (∃ r, AINavigator.processQuery
        [⟨"A", 0, 0, ["aaa", "aaab"], ""⟩, ⟨"B", 0, 0, ["bbbb"], "aaa"⟩]
        none AINavigator.GeoPermission.prompt "aaa bbb" = some r ∧
      r.locationFound = some ⟨"A", 0, 0, ["aaa", "aaab"], ""⟩) ∧
    claimedScore (keywordsOf "aaa bbb") ⟨"A", 0, 0, ["aaa", "aaab"], ""⟩ <
      claimedScore (keywordsOf "aaa bbb") ⟨"B", 0, 0, ["bbbb"], "aaa"⟩ := by
  refine ⟨⟨_, rfl, ?_⟩, ?_⟩ <;> decide

/-- C8: when every registry score is zero (in particular whenever all query
tokens have length at most 2), the chat widget replies with the fixed fallback
message, recommends no location, and requests no route. -/
theorem claim_C8 (h : Location) (t : List Location) (uloc : Option (ℚ × ℚ))
    (perm : AINavigator.GeoPermission) (q : String)
    (hz : ∀ loc ∈ h :: t, AINavigator.score (keywordsOf q) loc = 0) :
    AINavigator.processQuery (h :: t) uloc perm q =
      some ⟨AINavigator.fallbackText, none, none⟩ := by
  have hb : AINavigator.score (keywordsOf q) (AINavigator.bestMatch (keywordsOf q) h t) = 0 :=
    hz _ (bestMatch_fold_spec (keywordsOf q) t h).1
  simp only [AINavigator.processQuery]
  rw [if_neg (by omega)]

/-- C8 witness: a query whose tokens all have length at most 2 scores zero
everywhere and produces the fallback reply with no callbacks. -/
theorem claim_C8_witness :
    (∀ loc ∈ [(⟨"Library", 0, 0, ["study"], "Quiet."⟩ : Location)],
      AINavigator.score (keywordsOf "hi a b") loc = 0) ∧
    AINavigator.processQuery [⟨"Library", 0, 0, ["study"], "Quiet."⟩]
        none AINavigator.GeoPermission.prompt "hi a b" =
      some ⟨AINavigator.fallbackText, none, none⟩ :=
  ⟨by decide,
    claim_C8 ⟨"Library", 0, 0, ["study"], "Quiet."⟩ [] none
      AINavigator.GeoPermission.prompt "hi a b" (by decide)⟩

/-- Unfolding equation for the nearest-location loop body. -/
theorem nearestStep_eq (userLat userLng : ℚ) (acc : Option Location × EReal)
    (location : Location) :
    AINavigator.nearestStep userLat userLng acc location =
      if (AINavigator.distTo userLat userLng location : EReal) < acc.2
      then (some location, (AINavigator.distTo userLat userLng location : EReal))
      else acc := rfl

/-- Once the nearest-location scan holds some candidate, folding the rest of
the registry yields a candidate that is the old one or a scanned one, with
distance no larger than the old candidate's and than any scanned one's. -/
theorem nearest_fold_spec (userLat userLng : ℚ) :
    ∀ (l : List Location) (b : Location),
      ∃ b', l.foldl (AINavigator.nearestStep userLat userLng)
          (some b, (AINavigator.distTo userLat userLng b : EReal)) =
          (some b', (AINavigator.distTo userLat userLng b' : EReal)) ∧
        (b' = b ∨ b' ∈ l) ∧
        AINavigator.distTo userLat userLng b' ≤ AINavigator.distTo userLat userLng b ∧
        ∀ x ∈ l, AINavigator.distTo userLat userLng b' ≤ AINavigator.distTo userLat userLng x := by
  intro l
  induction l with
  | nil =>
    intro b
    exact ⟨b, rfl, Or.inl rfl, le_refl _, by simp⟩
  | cons x xs ih =>
    intro b
    rw [List.foldl_cons, nearestStep_eq]
    by_cases hc : (AINavigator.distTo userLat userLng x : EReal) <
        (AINavigator.distTo userLat userLng b : EReal)
    · rw [if_pos hc]
      obtain ⟨b', h1, h2, h3, h4⟩ := ih x
      have hxb : AINavigator.distTo userLat userLng x ≤
          AINavigator.distTo userLat userLng b := le_of_lt (by exact_mod_cast hc)
      refine ⟨b', h1, ?_, le_trans h3 hxb, ?_⟩
      · rcases h2 with h2 | h2
        · exact Or.inr (h2 ▸ List.mem_cons_self _ _)
        · exact Or.inr (List.mem_cons_of_mem _ h2)
      · intro z hz
        rcases List.mem_cons.mp hz with h5 | h5
        · exact h5 ▸ h3
        · exact h4 _ h5
    · rw [if_neg hc]
      obtain ⟨b', h1, h2, h3, h4⟩ := ih b
      have hbx : AINavigator.distTo userLat userLng b ≤
          AINavigator.distTo userLat userLng x := by
        have h6 := not_lt.mp hc
        exact_mod_cast h6
      refine ⟨b', h1, ?_, h3, ?_⟩
      · rcases h2 with h2 | h2
        · exact Or.inl h2
        · exact Or.inr (List.mem_cons_of_mem _ h2)
      · intro z hz
        rcases List.mem_cons.mp hz with h5 | h5
        · exact h5 ▸ le_trans h3 hbx
        · exact h4 _ h5

/-- C9: on a non-empty registry, `findNearestLocation` returns a registry
location of minimal Haversine distance to the device position; on the empty
registry it returns `none`; and when a position is available and the best
keyword score is positive, that nearest location's name is the `from` endpoint
of the requested route. -/
theorem claim_C9 (h : Location) (t : List Location) (userLat userLng : ℚ)
    (q : String)
    (hpos : 0 < AINavigator.score (keywordsOf q)
      (AINavigator.bestMatch (keywordsOf q) h t)) :
    AINavigator.findNearestLocation [] userLat userLng = none ∧
    ∃ loc, AINavigator.findNearestLocation (h :: t) userLat userLng = some loc ∧
      loc ∈ h :: t ∧
      (∀ l ∈ h :: t, AINavigator.distTo userLat userLng loc ≤
        AINavigator.distTo userLat userLng l) ∧
      ∃ r, AINavigator.processQuery (h :: t) (some (userLat, userLng))
          AINavigator.GeoPermission.granted q = some r ∧
        r.routeRequest = some (loc.name, (AINavigator.bestMatch (keywordsOf q) h t).name) := by
  have hfold : (h :: t).foldl (AINavigator.nearestStep userLat userLng)
      ((none : Option Location), (⊤ : EReal)) =
      t.foldl (AINavigator.nearestStep userLat userLng)
        (some h, (AINavigator.distTo userLat userLng h : EReal)) := by
    rw [List.foldl_cons, nearestStep_eq]
    rw [if_pos (by exact EReal.coe_lt_top _)]
  obtain ⟨b', h1, h2, h3, h4⟩ := nearest_fold_spec userLat userLng t h
  have hnear : AINavigator.findNearestLocation (h :: t) userLat userLng = some b' := by
    simp only [AINavigator.findNearestLocation, hfold, h1]
  refine ⟨rfl, b', hnear, ?_, ?_, ?_⟩
  · rcases h2 with h2 | h2
    · exact h2 ▸ List.mem_cons_self _ _
    · exact List.mem_cons_of_mem _ h2
  · intro l hl
    rcases List.mem_cons.mp hl with h5 | h5
    · exact h5 ▸ h3
    · exact h4 _ h5
  · simp only [AINavigator.processQuery]
    refine ⟨_, rfl, ?_⟩
    rw [if_pos hpos]
    simp only [hnear]

/-- C9 witness: a one-location registry with a positive-score query routes from
the unique (hence nearest) location. -/
theorem claim_C9_witness :
    (0 < AINavigator.score (keywordsOf "food")
      (AINavigator.bestMatch (keywordsOf "food") ⟨"Cafe", 0, 0, ["food"], "Snacks."⟩ [])) ∧
    (AINavigator.findNearestLocation [] 0 0 = none ∧
    ∃ loc, AINavigator.findNearestLocation [⟨"Cafe", 0, 0, ["food"], "Snacks."⟩] 0 0 =
        some loc ∧
      loc ∈ [(⟨"Cafe", 0, 0, ["food"], "Snacks."⟩ : Location)] ∧
      (∀ l ∈ [(⟨"Cafe", 0, 0, ["food"], "Snacks."⟩ : Location)],
        AINavigator.distTo 0 0 loc ≤ AINavigator.distTo 0 0 l) ∧
      ∃ r, AINavigator.processQuery [⟨"Cafe", 0, 0, ["food"], "Snacks."⟩]
          (some (0, 0)) AINavigator.GeoPermission.granted "food" = some r ∧
        r.routeRequest = some (loc.name,
          (AINavigator.bestMatch (keywordsOf "food")
            ⟨"Cafe", 0, 0, ["food"], "Snacks."⟩ []).name)) :=
  ⟨by decide, claim_C9 ⟨"Cafe", 0, 0, ["food"], "Snacks."⟩ [] 0 0 "food" (by decide)⟩

/-- Two strings with distinct leading characters differ. -/
theorem ne_of_head (x y : String) (c d : Char) (hx : x.data.head? = some c)
    (hy : y.data.head? = some d) (hcd : c ≠ d) : x ≠ y := by
  intro e
  rw [e] at hx
  rw [hx] at hy
  exact hcd (Option.some.inj hy)

/-- A direction line whose first character is none of the three tip emoji is
not flavor text. -/
theorem isFlavor_false_of_head (x : String) (c : Char) (hx : x.data.head? = some c)
    (h1 : c ≠ '💡') (h2 : c ≠ '😻') (h3 : c ≠ '😰') : isFlavor x = false := by
  have n1 : x ≠ PathNetwork.tipNewStudent := ne_of_head x _ c '💡' hx rfl h1
  have n2 : x ≠ PathNetwork.tipCatLover := ne_of_head x _ c '😻' hx rfl h2
  have n3 : x ≠ PathNetwork.tipCatFearful := ne_of_head x _ c '😰' hx rfl h3
  simp [isFlavor, n1, n2, n3]

/-- Segment lines always start with `Head` or `Continue`; they are never
flavor text. -/
theorem segLine_not_flavor (path : List PathNode) (i : ℕ) :
    isFlavor (PathNetwork.segLine path i) = false := by
  simp only [PathNetwork.segLine]
  split_ifs
  · exact isFlavor_false_of_head _ 'H' rfl (by decide) (by decide) (by decide)
  · exact isFlavor_false_of_head _ 'C' rfl (by decide) (by decide) (by decide)
  · exact isFlavor_false_of_head _ 'C' rfl (by decide) (by decide) (by decide)

/-- Filtering distributes over `flatMap`. -/
theorem filter_flatMap {α β : Type} (l : List α) (f : α → List β) (p : β → Bool) :
    (l.flatMap f).filter p = l.flatMap (fun a => (f a).filter p) := by
  induction l with
  | nil => simp
  | cons x xs ih => simp [List.filter_append, ih]

/-- Counting distributes over `flatMap`. -/
theorem countP_flatMap {α β : Type} (l : List α) (f : α → List β) (p : β → Bool) :
    (l.flatMap f).countP p = (l.map (fun a => (f a).countP p)).sum := by
  induction l with
  | nil => simp
  | cons x xs ih => simp [List.countP_append, ih]

/-- Tip lines are flavor text, so the non-flavor filter removes them all. -/
theorem tip_filter_empty (p : String) (n i : ℕ) :
    (PathNetwork.tipLines p n i).filter (fun s => !isFlavor s) = [] := by
  unfold PathNetwork.tipLines
  split_ifs <;> decide

/-- The tip chain for the new-student persona. -/
theorem tipLines_newStudent (n i : ℕ) :
    PathNetwork.tipLines "new-student" n i =
      if i = 0 then [PathNetwork.tipNewStudent] else [] := by
  unfold PathNetwork.tipLines
  by_cases hi : i = 0
  · rw [if_pos ⟨rfl, hi⟩, if_pos hi]
  · rw [if_neg (fun h => hi h.2), if_neg (fun h => absurd h.1 (by decide)),
      if_neg (fun h => absurd h.1 (by decide)), if_neg hi]

/-- The tip chain for the cat-lover persona. -/
theorem tipLines_catLover (n i : ℕ) :
    PathNetwork.tipLines "cat-lover" n i =
      if i = n / 2 then [PathNetwork.tipCatLover] else [] := by
  unfold PathNetwork.tipLines
  rw [if_neg (fun h => absurd h.1 (by decide))]
  by_cases hi : i = n / 2
  · rw [if_pos ⟨rfl, hi⟩, if_pos hi]
  · rw [if_neg (fun h => hi h.2), if_neg (fun h => absurd h.1 (by decide)), if_neg hi]

/-- The tip chain for the cat-fearful persona. -/
theorem tipLines_catFearful (n i : ℕ) :
    PathNetwork.tipLines "cat-fearful" n i =
      if i = 0 then [PathNetwork.tipCatFearful] else [] := by
  unfold PathNetwork.tipLines
  rw [if_neg (fun h => absurd h.1 (by decide)), if_neg (fun h => absurd h.1 (by decide))]
  by_cases hi : i = 0
  · rw [if_pos ⟨rfl, hi⟩, if_pos hi]
  · rw [if_neg (fun h => hi h.2), if_neg hi]

/-- Personas other than the three special ones get no tip lines. -/
theorem tipLines_of_ne (p : String) (n i : ℕ) (h1 : p ≠ "new-student")
    (h2 : p ≠ "cat-lover") (h3 : p ≠ "cat-fearful") :
    PathNetwork.tipLines p n i = [] := by
  unfold PathNetwork.tipLines
  rw [if_neg (fun h => h1 h.1), if_neg (fun h => h2 h.1), if_neg (fun h => h3 h.1)]

/-- Every persona has a single fixed segment index at which it may insert one
tip line; elsewhere it inserts none. -/
theorem tip_bound (p : String) (n : ℕ) :
    ∃ k, ∀ i, (PathNetwork.tipLines p n i).countP isFlavor ≤
      if i = k then 1 else 0 := by
  by_cases h1 : p = "new-student"
  · refine ⟨0, fun i => ?_⟩
    subst h1
    rw [tipLines_newStudent]
    by_cases hi : i = 0
    · rw [if_pos hi, if_pos hi]; decide
    · rw [if_neg hi, if_neg hi]; decide
  by_cases h2 : p = "cat-lover"
  · refine ⟨n / 2, fun i => ?_⟩
    subst h2
    rw [tipLines_catLover]
    by_cases hi : i = n / 2
    · rw [if_pos hi, if_pos hi]; decide
    · rw [if_neg hi, if_neg hi]; decide
  by_cases h3 : p = "cat-fearful"
  · refine ⟨0, fun i => ?_⟩
    subst h3
    rw [tipLines_catFearful]
    by_cases hi : i = 0
    · rw [if_pos hi, if_pos hi]; decide
    · rw [if_neg hi, if_neg hi]; decide
  · refine ⟨0, fun i => ?_⟩
    rw [tipLines_of_ne p n i h1 h2 h3]
    simp

/-- Summing a function dominated by the indicator of one index is at most 1. -/
theorem sum_le_one_of_indicator (g : ℕ → ℕ) (k : ℕ) :
    ∀ m : ℕ, (∀ i, g i ≤ if i = k then 1 else 0) →
      ((List.range m).map g).sum ≤ 1 := by
  intro m h
  induction m with
  | zero => simp
  | succ m ih =>
    rw [List.range_succ, List.map_append, List.sum_append]
    simp only [List.map_cons, List.map_nil, List.sum_cons, List.sum_nil]
    by_cases hm : m = k
    · have hpre : ((List.range m).map g).sum = 0 := by
        apply List.sum_eq_zero
        intro x hx
        obtain ⟨i, hi, rfl⟩ := List.mem_map.mp hx
        have hik : i ≠ k := by
          have := List.mem_range.mp hi
          omega
        have hg := h i
        rw [if_neg hik] at hg
        omega
      have hgm := h m
      rw [if_pos hm] at hgm
      omega
    · have hgm := h m
      rw [if_neg hm] at hgm
      omega

/-- Removing the flavor lines from `generateDirections` leaves the fixed
persona-independent skeleton: opening line, segment lines, closing line and
total-distance line. -/
theorem gen_filter (path : List PathNode) (persona : String)
    (hlen : ¬ path.length < 2) :
    (PathNetwork.generateDirections path persona).filter (fun s => !isFlavor s) =
      ("Start at " ++ (path.getD 0 default).name) ::
        ((List.range (path.length - 1)).flatMap
            (fun i => [PathNetwork.segLine path i]) ++
          ["Arrive at " ++ (path.getD (path.length - 1) default).name,
           "📍 Total distance: " ++
             toString (round (PathNetwork.totalDistance path)) ++ "m"]) := by
  have hstart : isFlavor ("Start at " ++ (path.getD 0 default).name) = false :=
    isFlavor_false_of_head _ 'S' rfl (by decide) (by decide) (by decide)
  have harr : isFlavor ("Arrive at " ++ (path.getD (path.length - 1) default).name)
      = false :=
    isFlavor_false_of_head _ 'A' rfl (by decide) (by decide) (by decide)
  have htot : isFlavor ("📍 Total distance: " ++
      toString (round (PathNetwork.totalDistance path)) ++ "m") = false :=
    isFlavor_false_of_head _ '📍' rfl (by decide) (by decide) (by decide)
  have hpt : ∀ i : ℕ,
      (PathNetwork.segLine path i ::
        PathNetwork.tipLines persona path.length i).filter (fun s => !isFlavor s) =
      [PathNetwork.segLine path i] := by
    intro i
    rw [List.filter_cons, tip_filter_empty]
    simp [segLine_not_flavor]
  unfold PathNetwork.generateDirections
  rw [if_neg hlen]
  rw [List.filter_cons]
  rw [List.filter_append, filter_flatMap]
  simp only [hpt, hstart, harr, htot, List.filter_cons, List.filter_nil,
    Bool.not_false, if_true, Bool.not_true, if_false]

/-- C5: for any path and any two personas, the generated directions agree
after erasing flavor lines, and each persona inserts at most one flavor line;
in particular the persona never changes the route or any non-flavor line
(`findPath` takes no persona input at all). -/
theorem claim_C5 (path : List PathNode) (p1 p2 : String) (hlen : 2 ≤ path.length) :
    ((PathNetwork.generateDirections path p1).filter (fun s => !isFlavor s) =
      (PathNetwork.generateDirections path p2).filter (fun s => !isFlavor s)) ∧
    (PathNetwork.generateDirections path p1).countP isFlavor ≤ 1 := by
  have hl : ¬ path.length < 2 := by omega
  refine ⟨by rw [gen_filter path p1 hl, gen_filter path p2 hl], ?_⟩
  have hstart : isFlavor ("Start at " ++ (path.getD 0 default).name) = false :=
    isFlavor_false_of_head _ 'S' rfl (by decide) (by decide) (by decide)
  have harr : isFlavor ("Arrive at " ++ (path.getD (path.length - 1) default).name)
      = false :=
    isFlavor_false_of_head _ 'A' rfl (by decide) (by decide) (by decide)
  have htot : isFlavor ("📍 Total distance: " ++
      toString (round (PathNetwork.totalDistance path)) ++ "m") = false :=
    isFlavor_false_of_head _ '📍' rfl (by decide) (by decide) (by decide)
  have hpt : ∀ i : ℕ,
      (PathNetwork.segLine path i ::
        PathNetwork.tipLines p1 path.length i).countP isFlavor =
      (PathNetwork.tipLines p1 path.length i).countP isFlavor := by
    intro i
    rw [List.countP_cons, segLine_not_flavor]
    simp
  unfold PathNetwork.generateDirections
  rw [if_neg hl]
  rw [List.countP_cons, List.countP_append, countP_flatMap]
  simp only [hpt, hstart, harr, htot, List.countP_cons, List.countP_nil]
  obtain ⟨k, hk⟩ := tip_bound p1 path.length
  have hsum := sum_le_one_of_indicator
    (fun i => (PathNetwork.tipLines p1 path.length i).countP isFlavor) k
    (path.length - 1) hk
  simp only [Bool.false_eq_true, if_false] at *
  omega

/-- C5 witness: the theorem applied to a concrete two-node path and the
new-student and cat-lover personas. -/
theorem claim_C5_witness :
    2 ≤ ([⟨"start", 0, 0, "A", NodeType.location⟩,
          ⟨"end", 1, 1, "B", NodeType.location⟩] : List PathNode).length ∧
    (((PathNetwork.generateDirections
        [⟨"start", 0, 0, "A", NodeType.location⟩,
         ⟨"end", 1, 1, "B", NodeType.location⟩] "new-student").filter
          (fun s => !isFlavor s) =
      (PathNetwork.generateDirections
        [⟨"start", 0, 0, "A", NodeType.location⟩,
         ⟨"end", 1, 1, "B", NodeType.location⟩] "cat-lover").filter
          (fun s => !isFlavor s)) ∧
    (PathNetwork.generateDirections
        [⟨"start", 0, 0, "A", NodeType.location⟩,
         ⟨"end", 1, 1, "B", NodeType.location⟩] "new-student").countP isFlavor ≤ 1) :=
  ⟨by norm_num,
    claim_C5 [⟨"start", 0, 0, "A", NodeType.location⟩,
      ⟨"end", 1, 1, "B", NodeType.location⟩] "new-student" "cat-lover" (by norm_num)⟩

/-- C3 (amended): for a 2-node path the directions consist of the opening
line, one segment line, the closing line and the total-distance line, plus one
persona tip exactly for the new-student and cat-fearful personas (5 strings for
those, 4 for every other persona, the cat-lover tip index 1 being out of range);
a path shorter than two nodes yields the empty sequence. -/
theorem claim_C3 (path : List PathNode) (persona : String) :
    (path.length = 2 →
      (PathNetwork.generateDirections path persona).length =
        if persona = "new-student" ∨ persona = "cat-fearful" then 5 else 4) ∧
    (path.length < 2 → PathNetwork.generateDirections path persona = []) := by
  constructor
  · intro h2
    obtain ⟨a, b, rfl⟩ := List.length_eq_two.mp h2
    unfold PathNetwork.generateDirections
    rw [if_neg (by simp)]
    have hr : ([a, b] : List PathNode).length - 1 = 1 := rfl
    rw [hr, show List.range 1 = [0] from by decide, List.flatMap_singleton,
      show ([a, b] : List PathNode).length = 2 from rfl]
    by_cases hp1 : persona = "new-student"
    · subst hp1
      rw [if_pos (Or.inl rfl), tipLines_newStudent, if_pos rfl]
      rfl
    · by_cases hp3 : persona = "cat-fearful"
      · subst hp3
        rw [if_pos (Or.inr rfl), tipLines_catFearful, if_pos rfl]
        rfl
      · rw [if_neg (by tauto)]
        by_cases hp2 : persona = "cat-lover"
        · subst hp2
          rw [tipLines_catLover, if_neg (by decide)]
          rfl
        · rw [tipLines_of_ne persona _ _ hp1 hp2 hp3]
          rfl
  · intro hlt
    unfold PathNetwork.generateDirections
    rw [if_pos hlt]

/-- C3 counterexample: for the new-student persona a 2-node path yields 5
strings (the flavor tip is inserted after the first segment), not 4. -/
theorem claim_C3_counterexample :
    (PathNetwork.generateDirections
      [⟨"start", 0, 0, "A", NodeType.location⟩,
       ⟨"end", 1, 1, "B", NodeType.location⟩] "new-student").length ≠ 4 := by
  unfold PathNetwork.generateDirections
  rw [if_neg (by simp)]
  rw [show (([⟨"start", 0, 0, "A", NodeType.location⟩,
       ⟨"end", 1, 1, "B", NodeType.location⟩] : List PathNode).length - 1) = 1 from rfl,
    show List.range 1 = [0] from by decide, List.flatMap_singleton]
  rw [show ([⟨"start", 0, 0, "A", NodeType.location⟩,
       ⟨"end", 1, 1, "B", NodeType.location⟩] : List PathNode).length = 2 from rfl,
    tipLines_newStudent, if_pos rfl]
  simp

/-- C3 witness: the amended theorem applied to a concrete 2-node path with the
faculty persona, which inserts no tip. -/
theorem claim_C3_witness :
    ([⟨"start", 0, 0, "A", NodeType.location⟩,
      ⟨"end", 1, 1, "B", NodeType.location⟩] : List PathNode).length = 2 ∧
    (PathNetwork.generateDirections
      [⟨"start", 0, 0, "A", NodeType.location⟩,
       ⟨"end", 1, 1, "B", NodeType.location⟩] "faculty").length =
      if ("faculty" = "new-student" ∨ "faculty" = "cat-fearful") then 5 else 4 :=
  ⟨rfl, (claim_C3 [⟨"start", 0, 0, "A", NodeType.location⟩,
    ⟨"end", 1, 1, "B", NodeType.location⟩] "faculty").1 rfl⟩
